import Mathlib

/-!
# Verification of the MobileCoin memo framework and merkle-proof service

Shallow embedding of `transaction/extra/src/memo/mod.rs` (memo type registry,
authenticated-sender and destination memo families) and
`fog/ledger/server/src/merkle_proof_service.rs` (output lookup service).

Bytes are modelled as `Nat` (with range side conditions where they matter),
byte strings as `List Nat`.  The concrete memo variant modules
(`authenticated_sender.rs`, `destination.rs`, the gift-code and
defragmentation modules, and the `impl_memo_enum` macro body) are not part of
the provided source; where a definition depends on them it is modelled from
the specification and says so in its doc comment.
-/

/-- Big-endian encoding of a natural number into `w` bytes, most significant
byte first; only the low `8*w` bits of `n` are kept, as in a fixed-width
store. -/
def natToBEBytes : Nat → Nat → List Nat
  | 0, _ => []
  | w + 1, n => natToBEBytes w (n / 256) ++ [n % 256]

/-- Big-endian decoding of a byte string into a natural number. -/
def beBytesToNat : List Nat → Nat
  | [] => 0
  | b :: rest => b * 256 ^ rest.length + beBytesToNat rest

theorem length_natToBEBytes (w n : Nat) : (natToBEBytes w n).length = w := by
  induction w generalizing n with
  | zero => rfl
  | succ w ih => simp [natToBEBytes, ih]

theorem beBytesToNat_append_singleton (l : List Nat) (b : Nat) :
    beBytesToNat (l ++ [b]) = beBytesToNat l * 256 + b := by
  induction l with
  | nil => simp [beBytesToNat]
  | cons x xs ih =>
      simp [beBytesToNat, ih]
      ring

theorem beBytesToNat_natToBEBytes (w n : Nat) :
    beBytesToNat (natToBEBytes w n) = n % 256 ^ w := by
  induction w generalizing n with
  | zero => simp [natToBEBytes, beBytesToNat, Nat.mod_one]
  | succ w ih =>
      rw [natToBEBytes, beBytesToNat_append_singleton, ih, pow_succ,
        mul_comm (256 ^ w) 256, Nat.mod_mul]
      omega

theorem beBytesToNat_natToBEBytes_of_lt {w n : Nat} (h : n < 256 ^ w) :
    beBytesToNat (natToBEBytes w n) = n := by
  rw [beBytesToNat_natToBEBytes, Nat.mod_eq_of_lt h]

/-- A memo payload: a 2-byte type code plus a 64-byte body
(`MemoPayload` in `mc_transaction_core`). -/
structure MemoPayload where
  type_code : List Nat
  body : List Nat
deriving DecidableEq

/-- An error that can occur when trying to interpret a raw `MemoPayload` as a
`MemoType` (from `memo/mod.rs`). -/
inductive MemoDecodingError where
  | UnknownMemoType (code : List Nat)
deriving DecidableEq

/-! ## Account key material and the sender authentication primitive

Modelled from the spec: the concrete modules `credential.rs` and
`authenticated_common.rs` are not under the provided source.  Key material is
modelled over `Nat`: a private scalar `x` has public counterpart `toPublic x`
(standing for `x·G`, injective), and the Diffie-Hellman-style agreement of a
private scalar with a public key is modelled as multiplication, which makes
the two sides of the agreement agree exactly as the curve operation does.
The short address hash and the keyed authentication tag are modelled as
injective pairings (idealised collision-free digests). -/

/-- Modelled from the spec: an account's long-term key material
(`AccountKey` in `mc_account_keys`), reduced to the two private scalars the
memo logic consumes. -/
structure AccountKey where
  view_private_key : Nat
  spend_private_key : Nat
deriving DecidableEq

/-- Modelled from the spec: a public address (`PublicAddress` in
`mc_account_keys`), the public counterparts of the two account scalars. -/
structure PublicAddress where
  view_public_key : Nat
  spend_public_key : Nat
deriving DecidableEq

/-- Modelled from the spec: the public key corresponding to a private scalar
(`x·G` on the curve); injectivity of the map is all the embedding uses. -/
def toPublic (x : Nat) : Nat := x

/-- Modelled from the spec: the default subaddress of an account
(`AccountKey::default_subaddress`). -/
def AccountKey.default_subaddress (a : AccountKey) : PublicAddress :=
  ⟨toPublic a.view_private_key, toPublic a.spend_private_key⟩

/-- Modelled from the spec: the view private key of the default subaddress
(`AccountKey::default_subaddress_view_private`). -/
def AccountKey.default_subaddress_view_private (a : AccountKey) : Nat :=
  a.view_private_key

/-- Modelled from the spec: the short address hash of a public address
(`ShortAddressHash::from(&PublicAddress)`), an idealised collision-free
truncated digest, modelled as an injective pairing of the address
components. -/
def shortAddressHash (p : PublicAddress) : Nat :=
  Nat.pair p.view_public_key p.spend_public_key

/-- Modelled from the spec: a sender memo credential (`credential.rs`),
derived once from an account: the subaddress spend private key together with
the short hash of the account's default subaddress. -/
structure SenderMemoCredential where
  subaddress_spend_private_key : Nat
  address_hash : Nat
deriving DecidableEq

/-- Modelled from the spec: `SenderMemoCredential::from(&AccountKey)`. -/
def SenderMemoCredential.from_account (a : AccountKey) : SenderMemoCredential :=
  ⟨a.spend_private_key, shortAddressHash a.default_subaddress⟩

/-- Modelled from the spec: the sender's side of the Diffie-Hellman-style
agreement — credential spend private scalar with the recipient's view public
key. -/
def sharedSecretSender (cred_spend_private recipient_view_public : Nat) : Nat :=
  cred_spend_private * recipient_view_public

/-- Modelled from the spec: the recipient's side of the agreement — recipient
view private scalar with the candidate sender's spend public key.  Equals the
sender's side exactly when the key material corresponds. -/
def sharedSecretRecipient (recipient_view_private sender_spend_public : Nat) : Nat :=
  recipient_view_private * sender_spend_public

/-- Modelled from the spec: the keyed authentication tag
(`compute_authenticated_sender_memo` in `authenticated_common.rs`): a keyed
digest of the shared secret, the per-output transaction public key, and the
authenticated message, modelled as an injective pairing. -/
def authTag (shared_secret tx_public_key msg : Nat) : Nat :=
  Nat.pair shared_secret (Nat.pair tx_public_key msg)

theorem authTag_inj {s₁ k₁ m₁ s₂ k₂ m₂ : Nat} :
    authTag s₁ k₁ m₁ = authTag s₂ k₂ m₂ ↔ s₁ = s₂ ∧ k₁ = k₂ ∧ m₁ = m₂ := by
  simp [authTag, Nat.pair_eq_pair, and_assoc]

theorem shortAddressHash_inj {p q : PublicAddress} :
    shortAddressHash p = shortAddressHash q ↔ p = q := by
  constructor
  · intro h
    rcases p with ⟨pv, ps⟩
    rcases q with ⟨qv, qs⟩
    simpa [shortAddressHash, Nat.pair_eq_pair] using h
  · intro h
    rw [h]

/-! ## Concrete memo variants

Modelled from the spec: the concrete variant modules are not under the
provided source.  Field widths follow the spec's body layouts: a 16-byte
short address hash, 7-byte big-endian confidential amounts, 8-byte auxiliary
ids, an authentication tag filling the bytes remaining after the hash (and the
auxiliary id, when present), and zero padding for reserved bytes. -/

/-- Modelled from the spec: the Authenticated Sender memo (type 0x0100):
sender's short address hash followed by the authentication tag. -/
structure AuthenticatedSenderMemo where
  addr_hash : Nat
  tag : Nat
deriving DecidableEq

/-- Modelled from the spec: `AuthenticatedSenderMemo::new` — stores the
credential's address hash and the keyed tag over it, computed from the
sender-side shared secret and the transaction public key. -/
def AuthenticatedSenderMemo.new (cred : SenderMemoCredential)
    (recipient_view_public tx_public_key : Nat) : AuthenticatedSenderMemo :=
  ⟨cred.address_hash,
    authTag (sharedSecretSender cred.subaddress_spend_private_key recipient_view_public)
      tx_public_key cred.address_hash⟩

/-- `AuthenticatedSenderMemo::sender_address_hash`. -/
def AuthenticatedSenderMemo.sender_address_hash (m : AuthenticatedSenderMemo) : Nat :=
  m.addr_hash

/-- Modelled from the spec: `AuthenticatedSenderMemo::validate` — recomputes
the shared secret from the recipient's view private key and the candidate
sender address, recomputes the expected tag, and requires both the tag match
and the stored-hash match. -/
def AuthenticatedSenderMemo.validate (m : AuthenticatedSenderMemo)
    (candidate_sender_address : PublicAddress)
    (recipient_view_private tx_public_key : Nat) : Bool :=
  (m.addr_hash == shortAddressHash candidate_sender_address) &&
    (m.tag ==
      authTag
        (sharedSecretRecipient recipient_view_private
          candidate_sender_address.spend_public_key)
        tx_public_key (shortAddressHash candidate_sender_address))

/-- Modelled from the spec: body layout hash(16) ‖ tag(48). -/
def AuthenticatedSenderMemo.toBody (m : AuthenticatedSenderMemo) : List Nat :=
  natToBEBytes 16 m.addr_hash ++ natToBEBytes 48 m.tag

/-- Modelled from the spec: inverse of `toBody`. -/
def AuthenticatedSenderMemo.fromBody (b : List Nat) : AuthenticatedSenderMemo :=
  ⟨beBytesToNat (b.take 16), beBytesToNat ((b.drop 16).take 48)⟩

/-- Field bounds under which the memo is representable in its body layout. -/
def AuthenticatedSenderMemo.Valid (m : AuthenticatedSenderMemo) : Prop :=
  m.addr_hash < 256 ^ 16 ∧ m.tag < 256 ^ 48

/-- Modelled from the spec: the Authenticated Sender With Payment Request Id
memo (type 0x0101): hash(16) ‖ payment request id(8) ‖ tag(40). -/
structure AuthenticatedSenderWithPaymentRequestIdMemo where
  addr_hash : Nat
  payment_request_id : Nat
  tag : Nat
deriving DecidableEq

/-- Modelled from the spec: construction binds the auxiliary payment request
id into the tag alongside the address hash. -/
def AuthenticatedSenderWithPaymentRequestIdMemo.new (cred : SenderMemoCredential)
    (recipient_view_public tx_public_key payment_request_id : Nat) :
    AuthenticatedSenderWithPaymentRequestIdMemo :=
  ⟨cred.address_hash, payment_request_id,
    authTag (sharedSecretSender cred.subaddress_spend_private_key recipient_view_public)
      tx_public_key (Nat.pair cred.address_hash payment_request_id)⟩

/-- `AuthenticatedSenderWithPaymentRequestIdMemo::sender_address_hash`. -/
def AuthenticatedSenderWithPaymentRequestIdMemo.sender_address_hash
    (m : AuthenticatedSenderWithPaymentRequestIdMemo) : Nat :=
  m.addr_hash

/-- Modelled from the spec: validation, as for the plain variant, with the
stored payment request id bound into the recomputed tag. -/
def AuthenticatedSenderWithPaymentRequestIdMemo.validate
    (m : AuthenticatedSenderWithPaymentRequestIdMemo)
    (candidate_sender_address : PublicAddress)
    (recipient_view_private tx_public_key : Nat) : Bool :=
  (m.addr_hash == shortAddressHash candidate_sender_address) &&
    (m.tag ==
      authTag
        (sharedSecretRecipient recipient_view_private
          candidate_sender_address.spend_public_key)
        tx_public_key
        (Nat.pair (shortAddressHash candidate_sender_address) m.payment_request_id))

/-- Modelled from the spec: body layout hash(16) ‖ id(8) ‖ tag(40). -/
def AuthenticatedSenderWithPaymentRequestIdMemo.toBody
    (m : AuthenticatedSenderWithPaymentRequestIdMemo) : List Nat :=
  natToBEBytes 16 m.addr_hash ++
    (natToBEBytes 8 m.payment_request_id ++ natToBEBytes 40 m.tag)

/-- Modelled from the spec: inverse of `toBody`. -/
def AuthenticatedSenderWithPaymentRequestIdMemo.fromBody (b : List Nat) :
    AuthenticatedSenderWithPaymentRequestIdMemo :=
  ⟨beBytesToNat (b.take 16), beBytesToNat ((b.drop 16).take 8),
    beBytesToNat ((b.drop 24).take 40)⟩

/-- Field bounds under which the memo is representable in its body layout. -/
def AuthenticatedSenderWithPaymentRequestIdMemo.Valid
    (m : AuthenticatedSenderWithPaymentRequestIdMemo) : Prop :=
  m.addr_hash < 256 ^ 16 ∧ m.payment_request_id < 256 ^ 8 ∧ m.tag < 256 ^ 40

/-- Modelled from the spec: the Authenticated Sender With Payment Intent Id
memo (type 0x0102), structurally identical to the payment-request variant. -/
structure AuthenticatedSenderWithPaymentIntentIdMemo where
  addr_hash : Nat
  payment_intent_id : Nat
  tag : Nat
deriving DecidableEq

/-- Modelled from the spec: body layout hash(16) ‖ id(8) ‖ tag(40). -/
def AuthenticatedSenderWithPaymentIntentIdMemo.toBody
    (m : AuthenticatedSenderWithPaymentIntentIdMemo) : List Nat :=
  natToBEBytes 16 m.addr_hash ++
    (natToBEBytes 8 m.payment_intent_id ++ natToBEBytes 40 m.tag)

/-- Modelled from the spec: inverse of `toBody`. -/
def AuthenticatedSenderWithPaymentIntentIdMemo.fromBody (b : List Nat) :
    AuthenticatedSenderWithPaymentIntentIdMemo :=
  ⟨beBytesToNat (b.take 16), beBytesToNat ((b.drop 16).take 8),
    beBytesToNat ((b.drop 24).take 40)⟩

/-- Field bounds under which the memo is representable in its body layout. -/
def AuthenticatedSenderWithPaymentIntentIdMemo.Valid
    (m : AuthenticatedSenderWithPaymentIntentIdMemo) : Prop :=
  m.addr_hash < 256 ^ 16 ∧ m.payment_intent_id < 256 ^ 8 ∧ m.tag < 256 ^ 40

/-- The Burn Redemption memo (type 0x0001): an opaque 64-byte payload
(`BurnRedemptionMemo::new([u8; 64])` in the tests). -/
structure BurnRedemptionMemo where
  memo_data : List Nat
deriving DecidableEq

/-- `BurnRedemptionMemo::new`. -/
def BurnRedemptionMemo.new (memo_data : List Nat) : BurnRedemptionMemo :=
  ⟨memo_data⟩

/-- The body is the opaque data itself. -/
def BurnRedemptionMemo.toBody (m : BurnRedemptionMemo) : List Nat :=
  m.memo_data

/-- Inverse of `toBody`. -/
def BurnRedemptionMemo.fromBody (b : List Nat) : BurnRedemptionMemo :=
  ⟨b⟩

/-- The opaque data must be exactly 64 bytes. -/
def BurnRedemptionMemo.Valid (m : BurnRedemptionMemo) : Prop :=
  m.memo_data.length = 64

/-- The Unused memo (type 0x0000): carries no data. -/
structure UnusedMemo where
deriving DecidableEq

/-- An all-zero body. -/
def UnusedMemo.toBody (_ : UnusedMemo) : List Nat :=
  List.replicate 64 0

/-- Inverse of `toBody`: ignores the body. -/
def UnusedMemo.fromBody (_ : List Nat) : UnusedMemo :=
  ⟨⟩

/-- Modelled from the spec: the Defragmentation memo (type 0x0003):
short hash(16) ‖ amount(7, big-endian) ‖ reserved zeros. -/
structure DefragmentationMemo where
  address_hash : List Nat
  amount : Nat
deriving DecidableEq

/-- Modelled from the spec: body layout hash(16) ‖ amount(7) ‖ zeros(41). -/
def DefragmentationMemo.toBody (m : DefragmentationMemo) : List Nat :=
  m.address_hash ++ (natToBEBytes 7 m.amount ++ List.replicate 41 0)

/-- Modelled from the spec: inverse of `toBody`. -/
def DefragmentationMemo.fromBody (b : List Nat) : DefragmentationMemo :=
  ⟨b.take 16, beBytesToNat ((b.drop 16).take 7)⟩

/-- Field bounds under which the memo is representable in its body layout. -/
def DefragmentationMemo.Valid (m : DefragmentationMemo) : Prop :=
  m.address_hash.length = 16 ∧ m.amount < 256 ^ 7

/-- Modelled from the spec: the Gift Code Sender memo (type 0x0002):
short hash(16) ‖ amount(7, big-endian) ‖ reserved zeros. -/
structure GiftCodeSenderMemo where
  address_hash : List Nat
  amount : Nat
deriving DecidableEq

/-- Modelled from the spec: body layout hash(16) ‖ amount(7) ‖ zeros(41). -/
def GiftCodeSenderMemo.toBody (m : GiftCodeSenderMemo) : List Nat :=
  m.address_hash ++ (natToBEBytes 7 m.amount ++ List.replicate 41 0)

/-- Modelled from the spec: inverse of `toBody`. -/
def GiftCodeSenderMemo.fromBody (b : List Nat) : GiftCodeSenderMemo :=
  ⟨b.take 16, beBytesToNat ((b.drop 16).take 7)⟩

/-- Field bounds under which the memo is representable in its body layout. -/
def GiftCodeSenderMemo.Valid (m : GiftCodeSenderMemo) : Prop :=
  m.address_hash.length = 16 ∧ m.amount < 256 ^ 7

/-- Modelled from the spec: the Gift Code Funding memo (type 0x0201):
short hash(16) ‖ amount(7, big-endian) ‖ reserved zeros. -/
structure GiftCodeFundingMemo where
  address_hash : List Nat
  amount : Nat
deriving DecidableEq

/-- Modelled from the spec: body layout hash(16) ‖ amount(7) ‖ zeros(41). -/
def GiftCodeFundingMemo.toBody (m : GiftCodeFundingMemo) : List Nat :=
  m.address_hash ++ (natToBEBytes 7 m.amount ++ List.replicate 41 0)

/-- Modelled from the spec: inverse of `toBody`. -/
def GiftCodeFundingMemo.fromBody (b : List Nat) : GiftCodeFundingMemo :=
  ⟨b.take 16, beBytesToNat ((b.drop 16).take 7)⟩

/-- Field bounds under which the memo is representable in its body layout. -/
def GiftCodeFundingMemo.Valid (m : GiftCodeFundingMemo) : Prop :=
  m.address_hash.length = 16 ∧ m.amount < 256 ^ 7

/-- Modelled from the spec: the Gift Code Cancellation memo (type 0x0202):
short hash(16) ‖ amount(7, big-endian) ‖ reserved zeros. -/
structure GiftCodeCancellationMemo where
  address_hash : List Nat
  amount : Nat
deriving DecidableEq

/-- Modelled from the spec: body layout hash(16) ‖ amount(7) ‖ zeros(41). -/
def GiftCodeCancellationMemo.toBody (m : GiftCodeCancellationMemo) : List Nat :=
  m.address_hash ++ (natToBEBytes 7 m.amount ++ List.replicate 41 0)

/-- Modelled from the spec: inverse of `toBody`. -/
def GiftCodeCancellationMemo.fromBody (b : List Nat) : GiftCodeCancellationMemo :=
  ⟨b.take 16, beBytesToNat ((b.drop 16).take 7)⟩

/-- Field bounds under which the memo is representable in its body layout. -/
def GiftCodeCancellationMemo.Valid (m : GiftCodeCancellationMemo) : Prop :=
  m.address_hash.length = 16 ∧ m.amount < 256 ^ 7

/-- Modelled from the spec: error from Destination memo construction or
mutation when a confidential field exceeds its allotted byte width
(`DestinationMemoError` in `destination.rs`). -/
inductive DestinationMemoError where
  | FeeExceedsLimit
  | TotalOutlayExceedsLimit
deriving DecidableEq

/-- Modelled from the spec: the Destination memo (type 0x0200): recipient
short address hash, count of recipients (1 byte), total outlay (7 bytes,
big-endian) and fee (7 bytes, big-endian). -/
structure DestinationMemo where
  address_hash : List Nat
  num_recipients : Nat
  total_outlay : Nat
  fee : Nat
deriving DecidableEq

/-- Modelled from the spec: `DestinationMemo::new(address_hash, total_outlay,
fee)` — fails when `fee` or `total_outlay` exceeds the maximum representable
in its 7-byte width; `num_recipients` defaults to 1. -/
def DestinationMemo.new (address_hash : List Nat) (total_outlay fee : Nat) :
    Except DestinationMemoError DestinationMemo :=
  if fee < 256 ^ 7 then
    if total_outlay < 256 ^ 7 then
      .ok ⟨address_hash, 1, total_outlay, fee⟩
    else .error .TotalOutlayExceedsLimit
  else .error .FeeExceedsLimit

/-- `DestinationMemo::get_address_hash`. -/
def DestinationMemo.get_address_hash (m : DestinationMemo) : List Nat :=
  m.address_hash

/-- `DestinationMemo::get_total_outlay`. -/
def DestinationMemo.get_total_outlay (m : DestinationMemo) : Nat :=
  m.total_outlay

/-- `DestinationMemo::get_fee`. -/
def DestinationMemo.get_fee (m : DestinationMemo) : Nat :=
  m.fee

/-- `DestinationMemo::get_num_recipients`. -/
def DestinationMemo.get_num_recipients (m : DestinationMemo) : Nat :=
  m.num_recipients

/-- Modelled from the spec: `DestinationMemo::set_address_hash`
(infallible). -/
def DestinationMemo.set_address_hash (m : DestinationMemo) (h : List Nat) :
    DestinationMemo :=
  { m with address_hash := h }

/-- Modelled from the spec: `DestinationMemo::set_total_outlay`
(infallible). -/
def DestinationMemo.set_total_outlay (m : DestinationMemo) (o : Nat) :
    DestinationMemo :=
  { m with total_outlay := o }

/-- Modelled from the spec: `DestinationMemo::set_fee` — fallible, same
bound as construction; on failure the memo is untouched (all-or-nothing). -/
def DestinationMemo.set_fee (m : DestinationMemo) (f : Nat) :
    Except DestinationMemoError DestinationMemo :=
  if f < 256 ^ 7 then .ok { m with fee := f } else .error .FeeExceedsLimit

/-- Modelled from the spec: `DestinationMemo::set_num_recipients`
(infallible, 1 byte). -/
def DestinationMemo.set_num_recipients (m : DestinationMemo) (n : Nat) :
    DestinationMemo :=
  { m with num_recipients := n }

/-- Modelled from the spec: body layout hash(16) ‖ num_recipients(1) ‖
total_outlay(7) ‖ fee(7) ‖ zeros(33). -/
def DestinationMemo.toBody (m : DestinationMemo) : List Nat :=
  m.address_hash ++ (natToBEBytes 1 m.num_recipients ++
    (natToBEBytes 7 m.total_outlay ++ (natToBEBytes 7 m.fee ++
      List.replicate 33 0)))

/-- Modelled from the spec: inverse of `toBody`. -/
def DestinationMemo.fromBody (b : List Nat) : DestinationMemo :=
  ⟨b.take 16, beBytesToNat ((b.drop 16).take 1),
    beBytesToNat ((b.drop 17).take 7), beBytesToNat ((b.drop 24).take 7)⟩

/-- Field bounds under which the memo is representable in its body layout. -/
def DestinationMemo.Valid (m : DestinationMemo) : Prop :=
  m.address_hash.length = 16 ∧ m.num_recipients < 256 ∧
    m.total_outlay < 256 ^ 7 ∧ m.fee < 256 ^ 7

/-- Modelled from the spec: the Destination With Payment Request Id memo
(type 0x0203): the Destination layout extended with an 8-byte payment
request id. -/
structure DestinationWithPaymentRequestIdMemo where
  address_hash : List Nat
  num_recipients : Nat
  total_outlay : Nat
  fee : Nat
  payment_request_id : Nat
deriving DecidableEq

/-- Modelled from the spec: body layout hash(16) ‖ num_recipients(1) ‖
total_outlay(7) ‖ fee(7) ‖ payment_request_id(8) ‖ zeros(25). -/
def DestinationWithPaymentRequestIdMemo.toBody
    (m : DestinationWithPaymentRequestIdMemo) : List Nat :=
  m.address_hash ++ (natToBEBytes 1 m.num_recipients ++
    (natToBEBytes 7 m.total_outlay ++ (natToBEBytes 7 m.fee ++
      (natToBEBytes 8 m.payment_request_id ++ List.replicate 25 0))))

/-- Modelled from the spec: inverse of `toBody`. -/
def DestinationWithPaymentRequestIdMemo.fromBody (b : List Nat) :
    DestinationWithPaymentRequestIdMemo :=
  ⟨b.take 16, beBytesToNat ((b.drop 16).take 1),
    beBytesToNat ((b.drop 17).take 7), beBytesToNat ((b.drop 24).take 7),
    beBytesToNat ((b.drop 31).take 8)⟩

/-- Field bounds under which the memo is representable in its body layout. -/
def DestinationWithPaymentRequestIdMemo.Valid
    (m : DestinationWithPaymentRequestIdMemo) : Prop :=
  m.address_hash.length = 16 ∧ m.num_recipients < 256 ∧
    m.total_outlay < 256 ^ 7 ∧ m.fee < 256 ^ 7 ∧
    m.payment_request_id < 256 ^ 8

/-- Modelled from the spec: the Destination With Payment Intent Id memo
(type 0x0204), structurally identical to the payment-request variant. -/
structure DestinationWithPaymentIntentIdMemo where
  address_hash : List Nat
  num_recipients : Nat
  total_outlay : Nat
  fee : Nat
  payment_intent_id : Nat
deriving DecidableEq

/-- Modelled from the spec: body layout hash(16) ‖ num_recipients(1) ‖
total_outlay(7) ‖ fee(7) ‖ payment_intent_id(8) ‖ zeros(25). -/
def DestinationWithPaymentIntentIdMemo.toBody
    (m : DestinationWithPaymentIntentIdMemo) : List Nat :=
  m.address_hash ++ (natToBEBytes 1 m.num_recipients ++
    (natToBEBytes 7 m.total_outlay ++ (natToBEBytes 7 m.fee ++
      (natToBEBytes 8 m.payment_intent_id ++ List.replicate 25 0))))

/-- Modelled from the spec: inverse of `toBody`. -/
def DestinationWithPaymentIntentIdMemo.fromBody (b : List Nat) :
    DestinationWithPaymentIntentIdMemo :=
  ⟨b.take 16, beBytesToNat ((b.drop 16).take 1),
    beBytesToNat ((b.drop 17).take 7), beBytesToNat ((b.drop 24).take 7),
    beBytesToNat ((b.drop 31).take 8)⟩

/-- Field bounds under which the memo is representable in its body layout. -/
def DestinationWithPaymentIntentIdMemo.Valid
    (m : DestinationWithPaymentIntentIdMemo) : Prop :=
  m.address_hash.length = 16 ∧ m.num_recipients < 256 ∧
    m.total_outlay < 256 ^ 7 ∧ m.fee < 256 ^ 7 ∧
    m.payment_intent_id < 256 ^ 8

/-! ## The memo type registry

The tagged union produced by the `impl_memo_enum` macro call in
`memo/mod.rs`, with the type code of each variant as recorded there and in
the module documentation table. -/

/-- The `MemoType` enum from `memo/mod.rs`: the tagged union over all twelve
registered memo variants, in the order of the `impl_memo_enum` call. -/
inductive MemoType where
  | AuthenticatedSender (m : AuthenticatedSenderMemo)
  | AuthenticatedSenderWithPaymentRequestId
      (m : AuthenticatedSenderWithPaymentRequestIdMemo)
  | AuthenticatedSenderWithPaymentIntentId
      (m : AuthenticatedSenderWithPaymentIntentIdMemo)
  | BurnRedemption (m : BurnRedemptionMemo)
  | Defragmentation (m : DefragmentationMemo)
  | Destination (m : DestinationMemo)
  | DestinationWithPaymentRequestId (m : DestinationWithPaymentRequestIdMemo)
  | DestinationWithPaymentIntentId (m : DestinationWithPaymentIntentIdMemo)
  | GiftCodeCancellation (m : GiftCodeCancellationMemo)
  | GiftCodeFunding (m : GiftCodeFundingMemo)
  | GiftCodeSender (m : GiftCodeSenderMemo)
  | Unused (m : UnusedMemo)
deriving DecidableEq

/-- The `MEMO_TYPE_BYTES` of each variant, from the `impl_memo_enum` call and
the type table in the module documentation of `memo/mod.rs`. -/
def MemoType.typeCode : MemoType → List Nat
  | .AuthenticatedSender _ => [0x01, 0x00]
  | .AuthenticatedSenderWithPaymentRequestId _ => [0x01, 0x01]
  | .AuthenticatedSenderWithPaymentIntentId _ => [0x01, 0x02]
  | .BurnRedemption _ => [0x00, 0x01]
  | .Defragmentation _ => [0x00, 0x03]
  | .Destination _ => [0x02, 0x00]
  | .DestinationWithPaymentRequestId _ => [0x02, 0x03]
  | .DestinationWithPaymentIntentId _ => [0x02, 0x04]
  | .GiftCodeCancellation _ => [0x02, 0x02]
  | .GiftCodeFunding _ => [0x02, 0x01]
  | .GiftCodeSender _ => [0x00, 0x02]
  | .Unused _ => [0x00, 0x00]

/-- The body of the variant held by a `MemoType` value. -/
def MemoType.toBody : MemoType → List Nat
  | .AuthenticatedSender m => m.toBody
  | .AuthenticatedSenderWithPaymentRequestId m => m.toBody
  | .AuthenticatedSenderWithPaymentIntentId m => m.toBody
  | .BurnRedemption m => m.toBody
  | .Defragmentation m => m.toBody
  | .Destination m => m.toBody
  | .DestinationWithPaymentRequestId m => m.toBody
  | .DestinationWithPaymentIntentId m => m.toBody
  | .GiftCodeCancellation m => m.toBody
  | .GiftCodeFunding m => m.toBody
  | .GiftCodeSender m => m.toBody
  | .Unused m => m.toBody

/-- `MemoPayload::from(memo)`: the variant's type code plus its body. -/
def MemoType.encode (v : MemoType) : MemoPayload :=
  ⟨v.typeCode, v.toBody⟩

/-- The field bounds of the variant held by a `MemoType` value. -/
def MemoType.Valid : MemoType → Prop
  | .AuthenticatedSender m => m.Valid
  | .AuthenticatedSenderWithPaymentRequestId m => m.Valid
  | .AuthenticatedSenderWithPaymentIntentId m => m.Valid
  | .BurnRedemption m => m.Valid
  | .Defragmentation m => m.Valid
  | .Destination m => m.Valid
  | .DestinationWithPaymentRequestId m => m.Valid
  | .DestinationWithPaymentIntentId m => m.Valid
  | .GiftCodeCancellation m => m.Valid
  | .GiftCodeFunding m => m.Valid
  | .GiftCodeSender m => m.Valid
  | .Unused _ => True

/-- Modelled from the spec: the dispatcher `MemoType::try_from(&MemoPayload)`
generated by the `impl_memo_enum` macro (whose body, `macros.rs`, is not under
the provided source): match the payload's type code against the registered
codes in declared order; on a match build that variant from the body, else
fail with `UnknownMemoType` carrying the raw code. -/
def MemoType.try_from (p : MemoPayload) : Except MemoDecodingError MemoType :=
  if p.type_code = [0x01, 0x00] then
    .ok (.AuthenticatedSender (AuthenticatedSenderMemo.fromBody p.body))
  else if p.type_code = [0x01, 0x01] then
    .ok (.AuthenticatedSenderWithPaymentRequestId
      (AuthenticatedSenderWithPaymentRequestIdMemo.fromBody p.body))
  else if p.type_code = [0x01, 0x02] then
    .ok (.AuthenticatedSenderWithPaymentIntentId
      (AuthenticatedSenderWithPaymentIntentIdMemo.fromBody p.body))
  else if p.type_code = [0x00, 0x01] then
    .ok (.BurnRedemption (BurnRedemptionMemo.fromBody p.body))
  else if p.type_code = [0x00, 0x03] then
    .ok (.Defragmentation (DefragmentationMemo.fromBody p.body))
  else if p.type_code = [0x02, 0x00] then
    .ok (.Destination (DestinationMemo.fromBody p.body))
  else if p.type_code = [0x02, 0x03] then
    .ok (.DestinationWithPaymentRequestId
      (DestinationWithPaymentRequestIdMemo.fromBody p.body))
  else if p.type_code = [0x02, 0x04] then
    .ok (.DestinationWithPaymentIntentId
      (DestinationWithPaymentIntentIdMemo.fromBody p.body))
  else if p.type_code = [0x02, 0x02] then
    .ok (.GiftCodeCancellation (GiftCodeCancellationMemo.fromBody p.body))
  else if p.type_code = [0x02, 0x01] then
    .ok (.GiftCodeFunding (GiftCodeFundingMemo.fromBody p.body))
  else if p.type_code = [0x00, 0x02] then
    .ok (.GiftCodeSender (GiftCodeSenderMemo.fromBody p.body))
  else if p.type_code = [0x00, 0x00] then
    .ok (.Unused (UnusedMemo.fromBody p.body))
  else
    .error (.UnknownMemoType p.type_code)

/-- The twelve registered type codes, in the order of the `impl_memo_enum`
call in `memo/mod.rs`. -/
def registeredTypeCodes : List (List Nat) :=
  [[0x01, 0x00], [0x01, 0x01], [0x01, 0x02], [0x00, 0x01], [0x00, 0x03],
   [0x02, 0x00], [0x02, 0x03], [0x02, 0x04], [0x02, 0x02], [0x02, 0x01],
   [0x00, 0x02], [0x00, 0x00]]

/-! ## The fog ledger merkle-proof service

Embedding of `get_outputs_impl` / `get_output_impl` from
`fog/ledger/server/src/merkle_proof_service.rs`.  The block provider is an
external collaborator (`mc_fog_block_provider`), modelled as a record of its
two queries; `TxOut` and `TxOutMembershipProof` are opaque to this code and
modelled as `Nat`, with `0` standing for `Default::default()`.
`MAX_BLOCK_VERSION` is a compile-time constant from `mc_blockchain_types`,
passed as a parameter. -/

/-- Errors from the block provider (`mc_fog_block_provider::Error`); only
`NotFound` is treated specially by the service, every other variant is
collapsed into `Other`. -/
inductive BlockProviderError where
  | NotFound
  | Other (code : Nat)
deriving DecidableEq

/-- The latest block data the service reads: `index`, `version` and
`cumulative_txo_count`. -/
structure Block where
  index : Nat
  version : Nat
  cumulative_txo_count : Nat
deriving DecidableEq

/-- The block provider as the service sees it: the latest block, and the
output-with-proof lookup by global index. -/
structure BlockProviderM where
  get_latest_block : Except BlockProviderError Block
  get_tx_out_and_membership_proof_by_index :
    Nat → Except BlockProviderError (Nat × Nat)

/-- `OutputResultCode` from the fog ledger API. -/
inductive OutputResultCode where
  | Exists
  | DoesNotExist
deriving DecidableEq

/-- One entry of the response (`OutputResult`). -/
structure OutputResult where
  index : Nat
  result_code : OutputResultCode
  output : Nat
  proof : Nat
deriving DecidableEq

/-- `GetOutputsResponse` from the fog ledger enclave API. -/
structure GetOutputsResponse where
  num_blocks : Nat
  global_txo_count : Nat
  results : List OutputResult
  latest_block_version : Nat
  max_block_version : Nat
deriving DecidableEq

/-- The two RPC error shapes `get_outputs_impl` can produce:
`rpc_invalid_arg_error` for an oversized request and `rpc_database_err` for a
block-provider failure (carrying it). -/
inductive RpcErrorKind where
  | invalidArg
  | databaseErr (e : BlockProviderError)
deriving DecidableEq

/-- Maximum number of TxOuts that may be returned for a single request
(`MAX_REQUEST_SIZE`). -/
def MAX_REQUEST_SIZE : Nat := 2000

/-- `get_output_impl`: look up one index; `NotFound` becomes `Ok(None)`,
success becomes `Ok(Some(result))`, any other error propagates. -/
def get_output_impl (bp : BlockProviderM) (idx : Nat) :
    Except BlockProviderError (Option (Nat × Nat)) :=
  match bp.get_tx_out_and_membership_proof_by_index idx with
  | .ok result => .ok (some result)
  | .error .NotFound => .ok none
  | .error err => .error err

/-- The `OutputResult` built for one requested index from the outcome of
`get_output_impl`: `Exists` with the output and proof, or `DoesNotExist`
with defaults. -/
def outputResultFor (idx : Nat) : Option (Nat × Nat) → OutputResult
  | some (output, proof) => ⟨idx, .Exists, output, proof⟩
  | none => ⟨idx, .DoesNotExist, 0, 0⟩

/-- The `indexes.iter().map(...).collect::<Result<Vec<_>, _>>()` loop of
`get_outputs_impl`: one `OutputResult` per requested index in request order,
stopping at the first propagated block-provider error. -/
def collectOutputResults (bp : BlockProviderM) :
    List Nat → Except BlockProviderError (List OutputResult)
  | [] => .ok []
  | idx :: rest =>
    match get_output_impl bp idx with
    | .error e => .error e
    | .ok r =>
      match collectOutputResults bp rest with
      | .error e => .error e
      | .ok tail => .ok (outputResultFor idx r :: tail)

/-- `get_outputs_impl`: reject requests larger than `MAX_REQUEST_SIZE`
with an invalid-argument error, then assemble the response from the latest
block and the per-index results, mapping block-provider failures to database
errors. -/
def get_outputs_impl (maxBlockVersion : Nat) (bp : BlockProviderM)
    (indexes : List Nat) : Except RpcErrorKind GetOutputsResponse :=
  if indexes.length > MAX_REQUEST_SIZE then
    .error .invalidArg
  else
    match bp.get_latest_block with
    | .error e => .error (.databaseErr e)
    | .ok latest =>
      match collectOutputResults bp indexes with
      | .error e => .error (.databaseErr e)
      | .ok results =>
        .ok { num_blocks := latest.index + 1,
              global_txo_count := latest.cumulative_txo_count,
              results := results,
              latest_block_version := latest.version,
              max_block_version := max latest.version maxBlockVersion }

/-! ## Round-trip of each registered variant through its body -/

theorem take_append_of_length {a : List Nat} (b : List Nat) {n : Nat}
    (h : a.length = n) : (a ++ b).take n = a :=
  List.take_left' h

theorem drop_append_of_length {a : List Nat} (b : List Nat) {n : Nat}
    (h : a.length = n) : (a ++ b).drop n = b :=
  List.drop_left' h

theorem take_all_of_length {a : List Nat} {n : Nat} (h : a.length = n) :
    a.take n = a :=
  List.take_of_length_le (le_of_eq h)

theorem authenticatedSenderMemo_fromBody_toBody (m : AuthenticatedSenderMemo)
    (h : m.Valid) : AuthenticatedSenderMemo.fromBody m.toBody = m := by
  obtain ⟨h1, h2⟩ := h
  simp only [AuthenticatedSenderMemo.fromBody, AuthenticatedSenderMemo.toBody]
  rw [take_append_of_length _ (length_natToBEBytes 16 m.addr_hash),
    drop_append_of_length _ (length_natToBEBytes 16 m.addr_hash),
    take_all_of_length (length_natToBEBytes 48 m.tag),
    beBytesToNat_natToBEBytes_of_lt h1, beBytesToNat_natToBEBytes_of_lt h2]

theorem authenticatedSenderWithPaymentRequestIdMemo_fromBody_toBody
    (m : AuthenticatedSenderWithPaymentRequestIdMemo) (h : m.Valid) :
    AuthenticatedSenderWithPaymentRequestIdMemo.fromBody m.toBody = m := by
  obtain ⟨h1, h2, h3⟩ := h
  simp only [AuthenticatedSenderWithPaymentRequestIdMemo.fromBody,
    AuthenticatedSenderWithPaymentRequestIdMemo.toBody]
  rw [show (24 : Nat) = 16 + 8 from rfl, ← List.drop_drop,
    take_append_of_length _ (length_natToBEBytes 16 m.addr_hash),
    drop_append_of_length _ (length_natToBEBytes 16 m.addr_hash),
    take_append_of_length _ (length_natToBEBytes 8 m.payment_request_id),
    drop_append_of_length _ (length_natToBEBytes 8 m.payment_request_id),
    take_all_of_length (length_natToBEBytes 40 m.tag),
    beBytesToNat_natToBEBytes_of_lt h1, beBytesToNat_natToBEBytes_of_lt h2,
    beBytesToNat_natToBEBytes_of_lt h3]

theorem authenticatedSenderWithPaymentIntentIdMemo_fromBody_toBody
    (m : AuthenticatedSenderWithPaymentIntentIdMemo) (h : m.Valid) :
    AuthenticatedSenderWithPaymentIntentIdMemo.fromBody m.toBody = m := by
  obtain ⟨h1, h2, h3⟩ := h
  simp only [AuthenticatedSenderWithPaymentIntentIdMemo.fromBody,
    AuthenticatedSenderWithPaymentIntentIdMemo.toBody]
  rw [show (24 : Nat) = 16 + 8 from rfl, ← List.drop_drop,
    take_append_of_length _ (length_natToBEBytes 16 m.addr_hash),
    drop_append_of_length _ (length_natToBEBytes 16 m.addr_hash),
    take_append_of_length _ (length_natToBEBytes 8 m.payment_intent_id),
    drop_append_of_length _ (length_natToBEBytes 8 m.payment_intent_id),
    take_all_of_length (length_natToBEBytes 40 m.tag),
    beBytesToNat_natToBEBytes_of_lt h1, beBytesToNat_natToBEBytes_of_lt h2,
    beBytesToNat_natToBEBytes_of_lt h3]

theorem burnRedemptionMemo_fromBody_toBody (m : BurnRedemptionMemo) :
    BurnRedemptionMemo.fromBody m.toBody = m := rfl

theorem unusedMemo_fromBody_toBody (m : UnusedMemo) :
    UnusedMemo.fromBody m.toBody = m := rfl

theorem defragmentationMemo_fromBody_toBody (m : DefragmentationMemo)
    (h : m.Valid) : DefragmentationMemo.fromBody m.toBody = m := by
  obtain ⟨h1, h2⟩ := h
  simp only [DefragmentationMemo.fromBody, DefragmentationMemo.toBody]
  rw [take_append_of_length _ h1, drop_append_of_length _ h1,
    take_append_of_length _ (length_natToBEBytes 7 m.amount),
    beBytesToNat_natToBEBytes_of_lt h2]

theorem giftCodeSenderMemo_fromBody_toBody (m : GiftCodeSenderMemo)
    (h : m.Valid) : GiftCodeSenderMemo.fromBody m.toBody = m := by
  obtain ⟨h1, h2⟩ := h
  simp only [GiftCodeSenderMemo.fromBody, GiftCodeSenderMemo.toBody]
  rw [take_append_of_length _ h1, drop_append_of_length _ h1,
    take_append_of_length _ (length_natToBEBytes 7 m.amount),
    beBytesToNat_natToBEBytes_of_lt h2]

theorem giftCodeFundingMemo_fromBody_toBody (m : GiftCodeFundingMemo)
    (h : m.Valid) : GiftCodeFundingMemo.fromBody m.toBody = m := by
  obtain ⟨h1, h2⟩ := h
  simp only [GiftCodeFundingMemo.fromBody, GiftCodeFundingMemo.toBody]
  rw [take_append_of_length _ h1, drop_append_of_length _ h1,
    take_append_of_length _ (length_natToBEBytes 7 m.amount),
    beBytesToNat_natToBEBytes_of_lt h2]

theorem giftCodeCancellationMemo_fromBody_toBody (m : GiftCodeCancellationMemo)
    (h : m.Valid) : GiftCodeCancellationMemo.fromBody m.toBody = m := by
  obtain ⟨h1, h2⟩ := h
  simp only [GiftCodeCancellationMemo.fromBody, GiftCodeCancellationMemo.toBody]
  rw [take_append_of_length _ h1, drop_append_of_length _ h1,
    take_append_of_length _ (length_natToBEBytes 7 m.amount),
    beBytesToNat_natToBEBytes_of_lt h2]

theorem destinationMemo_fromBody_toBody (m : DestinationMemo)
    (h : m.Valid) : DestinationMemo.fromBody m.toBody = m := by
  obtain ⟨h1, h2, h3, h4⟩ := h
  have hnr : m.num_recipients < 256 ^ 1 := by simpa using h2
  simp only [DestinationMemo.fromBody, DestinationMemo.toBody]
  rw [show (24 : Nat) = 17 + 7 from rfl, ← List.drop_drop,
    show (17 : Nat) = 16 + 1 from rfl, ← List.drop_drop,
    take_append_of_length _ h1, drop_append_of_length _ h1,
    take_append_of_length _ (length_natToBEBytes 1 m.num_recipients),
    drop_append_of_length _ (length_natToBEBytes 1 m.num_recipients),
    take_append_of_length _ (length_natToBEBytes 7 m.total_outlay),
    drop_append_of_length _ (length_natToBEBytes 7 m.total_outlay),
    take_append_of_length _ (length_natToBEBytes 7 m.fee),
    beBytesToNat_natToBEBytes_of_lt hnr, beBytesToNat_natToBEBytes_of_lt h3,
    beBytesToNat_natToBEBytes_of_lt h4]

theorem destinationWithPaymentRequestIdMemo_fromBody_toBody
    (m : DestinationWithPaymentRequestIdMemo) (h : m.Valid) :
    DestinationWithPaymentRequestIdMemo.fromBody m.toBody = m := by
  obtain ⟨h1, h2, h3, h4, h5⟩ := h
  have hnr : m.num_recipients < 256 ^ 1 := by simpa using h2
  simp only [DestinationWithPaymentRequestIdMemo.fromBody,
    DestinationWithPaymentRequestIdMemo.toBody]
  rw [show (31 : Nat) = 24 + 7 from rfl, ← List.drop_drop,
    show (24 : Nat) = 17 + 7 from rfl, ← List.drop_drop,
    show (17 : Nat) = 16 + 1 from rfl, ← List.drop_drop,
    take_append_of_length _ h1, drop_append_of_length _ h1,
    take_append_of_length _ (length_natToBEBytes 1 m.num_recipients),
    drop_append_of_length _ (length_natToBEBytes 1 m.num_recipients),
    take_append_of_length _ (length_natToBEBytes 7 m.total_outlay),
    drop_append_of_length _ (length_natToBEBytes 7 m.total_outlay),
    take_append_of_length _ (length_natToBEBytes 7 m.fee),
    drop_append_of_length _ (length_natToBEBytes 7 m.fee),
    take_append_of_length _ (length_natToBEBytes 8 m.payment_request_id),
    beBytesToNat_natToBEBytes_of_lt hnr, beBytesToNat_natToBEBytes_of_lt h3,
    beBytesToNat_natToBEBytes_of_lt h4, beBytesToNat_natToBEBytes_of_lt h5]

theorem destinationWithPaymentIntentIdMemo_fromBody_toBody
    (m : DestinationWithPaymentIntentIdMemo) (h : m.Valid) :
    DestinationWithPaymentIntentIdMemo.fromBody m.toBody = m := by
  obtain ⟨h1, h2, h3, h4, h5⟩ := h
  have hnr : m.num_recipients < 256 ^ 1 := by simpa using h2
  simp only [DestinationWithPaymentIntentIdMemo.fromBody,
    DestinationWithPaymentIntentIdMemo.toBody]
  rw [show (31 : Nat) = 24 + 7 from rfl, ← List.drop_drop,
    show (24 : Nat) = 17 + 7 from rfl, ← List.drop_drop,
    show (17 : Nat) = 16 + 1 from rfl, ← List.drop_drop,
    take_append_of_length _ h1, drop_append_of_length _ h1,
    take_append_of_length _ (length_natToBEBytes 1 m.num_recipients),
    drop_append_of_length _ (length_natToBEBytes 1 m.num_recipients),
    take_append_of_length _ (length_natToBEBytes 7 m.total_outlay),
    drop_append_of_length _ (length_natToBEBytes 7 m.total_outlay),
    take_append_of_length _ (length_natToBEBytes 7 m.fee),
    drop_append_of_length _ (length_natToBEBytes 7 m.fee),
    take_append_of_length _ (length_natToBEBytes 8 m.payment_intent_id),
    beBytesToNat_natToBEBytes_of_lt hnr, beBytesToNat_natToBEBytes_of_lt h3,
    beBytesToNat_natToBEBytes_of_lt h4, beBytesToNat_natToBEBytes_of_lt h5]

/-! ## Dispatch of each registered type code -/

theorem try_from_code_authenticated_sender (b : List Nat) :
    MemoType.try_from ⟨[0x01, 0x00], b⟩ =
      .ok (.AuthenticatedSender (AuthenticatedSenderMemo.fromBody b)) := rfl

theorem try_from_code_authenticated_sender_with_payment_request_id
    (b : List Nat) :
    MemoType.try_from ⟨[0x01, 0x01], b⟩ =
      .ok (.AuthenticatedSenderWithPaymentRequestId
        (AuthenticatedSenderWithPaymentRequestIdMemo.fromBody b)) := rfl

theorem try_from_code_authenticated_sender_with_payment_intent_id
    (b : List Nat) :
    MemoType.try_from ⟨[0x01, 0x02], b⟩ =
      .ok (.AuthenticatedSenderWithPaymentIntentId
        (AuthenticatedSenderWithPaymentIntentIdMemo.fromBody b)) := rfl

theorem try_from_code_burn_redemption (b : List Nat) :
    MemoType.try_from ⟨[0x00, 0x01], b⟩ =
      .ok (.BurnRedemption (BurnRedemptionMemo.fromBody b)) := rfl

theorem try_from_code_defragmentation (b : List Nat) :
    MemoType.try_from ⟨[0x00, 0x03], b⟩ =
      .ok (.Defragmentation (DefragmentationMemo.fromBody b)) := rfl

theorem try_from_code_destination (b : List Nat) :
    MemoType.try_from ⟨[0x02, 0x00], b⟩ =
      .ok (.Destination (DestinationMemo.fromBody b)) := rfl

theorem try_from_code_destination_with_payment_request_id (b : List Nat) :
    MemoType.try_from ⟨[0x02, 0x03], b⟩ =
      .ok (.DestinationWithPaymentRequestId
        (DestinationWithPaymentRequestIdMemo.fromBody b)) := rfl

theorem try_from_code_destination_with_payment_intent_id (b : List Nat) :
    MemoType.try_from ⟨[0x02, 0x04], b⟩ =
      .ok (.DestinationWithPaymentIntentId
        (DestinationWithPaymentIntentIdMemo.fromBody b)) := rfl

theorem try_from_code_gift_code_cancellation (b : List Nat) :
    MemoType.try_from ⟨[0x02, 0x02], b⟩ =
      .ok (.GiftCodeCancellation (GiftCodeCancellationMemo.fromBody b)) := rfl

theorem try_from_code_gift_code_funding (b : List Nat) :
    MemoType.try_from ⟨[0x02, 0x01], b⟩ =
      .ok (.GiftCodeFunding (GiftCodeFundingMemo.fromBody b)) := rfl

theorem try_from_code_gift_code_sender (b : List Nat) :
    MemoType.try_from ⟨[0x00, 0x02], b⟩ =
      .ok (.GiftCodeSender (GiftCodeSenderMemo.fromBody b)) := rfl

theorem try_from_code_unused (b : List Nat) :
    MemoType.try_from ⟨[0x00, 0x00], b⟩ =
      .ok (.Unused (UnusedMemo.fromBody b)) := rfl

/-- C1: for every registered memo variant `v` with in-range fields, encoding
`v` to a memo payload (its 2-byte type code plus its 64-byte body) and then
classifying that payload succeeds and recovers exactly `v`: the decoded
tagged union carries `v`'s tag and every field of `v`. -/
theorem memoType_encode_try_from_roundTrip (v : MemoType) (h : v.Valid) :
    MemoType.try_from v.encode = .ok v ∧
      v.encode.type_code.length = 2 ∧ v.encode.body.length = 64 := by
  cases v with
  | AuthenticatedSender m =>
      exact ⟨by
        rw [show (MemoType.AuthenticatedSender m).encode =
            ⟨[0x01, 0x00], m.toBody⟩ from rfl,
          try_from_code_authenticated_sender,
          authenticatedSenderMemo_fromBody_toBody m h], rfl, by
        simp [MemoType.encode, MemoType.toBody, AuthenticatedSenderMemo.toBody,
          length_natToBEBytes]⟩
  | AuthenticatedSenderWithPaymentRequestId m =>
      exact ⟨by
        rw [show (MemoType.AuthenticatedSenderWithPaymentRequestId m).encode =
            ⟨[0x01, 0x01], m.toBody⟩ from rfl,
          try_from_code_authenticated_sender_with_payment_request_id,
          authenticatedSenderWithPaymentRequestIdMemo_fromBody_toBody m h],
        rfl, by
        simp [MemoType.encode, MemoType.toBody,
          AuthenticatedSenderWithPaymentRequestIdMemo.toBody,
          length_natToBEBytes]⟩
  | AuthenticatedSenderWithPaymentIntentId m =>
      exact ⟨by
        rw [show (MemoType.AuthenticatedSenderWithPaymentIntentId m).encode =
            ⟨[0x01, 0x02], m.toBody⟩ from rfl,
          try_from_code_authenticated_sender_with_payment_intent_id,
          authenticatedSenderWithPaymentIntentIdMemo_fromBody_toBody m h],
        rfl, by
        simp [MemoType.encode, MemoType.toBody,
          AuthenticatedSenderWithPaymentIntentIdMemo.toBody,
          length_natToBEBytes]⟩
  | BurnRedemption m =>
      exact ⟨by
        rw [show (MemoType.BurnRedemption m).encode =
            ⟨[0x00, 0x01], m.toBody⟩ from rfl,
          try_from_code_burn_redemption, burnRedemptionMemo_fromBody_toBody m],
        rfl, by
        simpa [MemoType.encode, MemoType.toBody,
          BurnRedemptionMemo.toBody] using h⟩
  | Defragmentation m =>
      exact ⟨by
        rw [show (MemoType.Defragmentation m).encode =
            ⟨[0x00, 0x03], m.toBody⟩ from rfl,
          try_from_code_defragmentation,
          defragmentationMemo_fromBody_toBody m h], rfl, by
        simp [MemoType.encode, MemoType.toBody, DefragmentationMemo.toBody,
          length_natToBEBytes, h.1]⟩
  | Destination m =>
      exact ⟨by
        rw [show (MemoType.Destination m).encode =
            ⟨[0x02, 0x00], m.toBody⟩ from rfl,
          try_from_code_destination, destinationMemo_fromBody_toBody m h],
        rfl, by
        simp [MemoType.encode, MemoType.toBody, DestinationMemo.toBody,
          length_natToBEBytes, h.1]⟩
  | DestinationWithPaymentRequestId m =>
      exact ⟨by
        rw [show (MemoType.DestinationWithPaymentRequestId m).encode =
            ⟨[0x02, 0x03], m.toBody⟩ from rfl,
          try_from_code_destination_with_payment_request_id,
          destinationWithPaymentRequestIdMemo_fromBody_toBody m h], rfl, by
        simp [MemoType.encode, MemoType.toBody,
          DestinationWithPaymentRequestIdMemo.toBody,
          length_natToBEBytes, h.1]⟩
  | DestinationWithPaymentIntentId m =>
      exact ⟨by
        rw [show (MemoType.DestinationWithPaymentIntentId m).encode =
            ⟨[0x02, 0x04], m.toBody⟩ from rfl,
          try_from_code_destination_with_payment_intent_id,
          destinationWithPaymentIntentIdMemo_fromBody_toBody m h], rfl, by
        simp [MemoType.encode, MemoType.toBody,
          DestinationWithPaymentIntentIdMemo.toBody,
          length_natToBEBytes, h.1]⟩
  | GiftCodeCancellation m =>
      exact ⟨by
        rw [show (MemoType.GiftCodeCancellation m).encode =
            ⟨[0x02, 0x02], m.toBody⟩ from rfl,
          try_from_code_gift_code_cancellation,
          giftCodeCancellationMemo_fromBody_toBody m h], rfl, by
        simp [MemoType.encode, MemoType.toBody, GiftCodeCancellationMemo.toBody,
          length_natToBEBytes, h.1]⟩
  | GiftCodeFunding m =>
      exact ⟨by
        rw [show (MemoType.GiftCodeFunding m).encode =
            ⟨[0x02, 0x01], m.toBody⟩ from rfl,
          try_from_code_gift_code_funding,
          giftCodeFundingMemo_fromBody_toBody m h], rfl, by
        simp [MemoType.encode, MemoType.toBody, GiftCodeFundingMemo.toBody,
          length_natToBEBytes, h.1]⟩
  | GiftCodeSender m =>
      exact ⟨by
        rw [show (MemoType.GiftCodeSender m).encode =
            ⟨[0x00, 0x02], m.toBody⟩ from rfl,
          try_from_code_gift_code_sender,
          giftCodeSenderMemo_fromBody_toBody m h], rfl, by
        simp [MemoType.encode, MemoType.toBody, GiftCodeSenderMemo.toBody,
          length_natToBEBytes, h.1]⟩
  | Unused m =>
      exact ⟨by
        rw [show (MemoType.Unused m).encode =
            ⟨[0x00, 0x00], m.toBody⟩ from rfl,
          try_from_code_unused, unusedMemo_fromBody_toBody m], rfl, by
        simp [MemoType.encode, MemoType.toBody, UnusedMemo.toBody]⟩

/-- Witness for C1 at a concrete Destination memo. -/
theorem memoType_encode_try_from_roundTrip_witness :
    MemoType.try_from
        (MemoType.encode (.Destination ⟨List.replicate 16 0, 1, 17, 18⟩)) =
      .ok (.Destination ⟨List.replicate 16 0, 1, 17, 18⟩) :=
  (memoType_encode_try_from_roundTrip
    (.Destination ⟨List.replicate 16 0, 1, 17, 18⟩)
    ⟨by decide, by decide, by decide, by decide⟩).1

/-- C3: the memo type registry is exactly the twelve-entry table fixed at
build time: classification maps each listed 2-byte code to the named
variant, every variant's code is in the table, and all pairs of distinct
registered entries have different type codes. -/
theorem memo_registry_is_the_twelve_entry_table :
    (∀ b : List Nat,
      MemoType.try_from ⟨[0x00, 0x00], b⟩ =
        .ok (.Unused (UnusedMemo.fromBody b)) ∧
      MemoType.try_from ⟨[0x00, 0x01], b⟩ =
        .ok (.BurnRedemption (BurnRedemptionMemo.fromBody b)) ∧
      MemoType.try_from ⟨[0x00, 0x02], b⟩ =
        .ok (.GiftCodeSender (GiftCodeSenderMemo.fromBody b)) ∧
      MemoType.try_from ⟨[0x00, 0x03], b⟩ =
        .ok (.Defragmentation (DefragmentationMemo.fromBody b)) ∧
      MemoType.try_from ⟨[0x01, 0x00], b⟩ =
        .ok (.AuthenticatedSender (AuthenticatedSenderMemo.fromBody b)) ∧
      MemoType.try_from ⟨[0x01, 0x01], b⟩ =
        .ok (.AuthenticatedSenderWithPaymentRequestId
          (AuthenticatedSenderWithPaymentRequestIdMemo.fromBody b)) ∧
      MemoType.try_from ⟨[0x01, 0x02], b⟩ =
        .ok (.AuthenticatedSenderWithPaymentIntentId
          (AuthenticatedSenderWithPaymentIntentIdMemo.fromBody b)) ∧
      MemoType.try_from ⟨[0x02, 0x00], b⟩ =
        .ok (.Destination (DestinationMemo.fromBody b)) ∧
      MemoType.try_from ⟨[0x02, 0x01], b⟩ =
        .ok (.GiftCodeFunding (GiftCodeFundingMemo.fromBody b)) ∧
      MemoType.try_from ⟨[0x02, 0x02], b⟩ =
        .ok (.GiftCodeCancellation (GiftCodeCancellationMemo.fromBody b)) ∧
      MemoType.try_from ⟨[0x02, 0x03], b⟩ =
        .ok (.DestinationWithPaymentRequestId
          (DestinationWithPaymentRequestIdMemo.fromBody b)) ∧
      MemoType.try_from ⟨[0x02, 0x04], b⟩ =
        .ok (.DestinationWithPaymentIntentId
          (DestinationWithPaymentIntentIdMemo.fromBody b))) ∧
    (∀ v : MemoType, v.typeCode ∈ registeredTypeCodes) ∧
    registeredTypeCodes.length = 12 ∧
    registeredTypeCodes.Pairwise (· ≠ ·) := by
  refine ⟨fun b =>
    ⟨rfl, rfl, rfl, rfl, rfl, rfl, rfl, rfl, rfl, rfl, rfl, rfl⟩,
    fun v => ?_, rfl, by decide⟩
  cases v <;> simp [MemoType.typeCode, registeredTypeCodes]

/-- C4: classifying any payload whose 2-byte type code is not in the registry
fails with `UnknownMemoType` carrying that exact raw code, and no variant is
produced. -/
theorem try_from_unknown_code (tc b : List Nat)
    (h : tc ∉ registeredTypeCodes) :
    MemoType.try_from ⟨tc, b⟩ = .error (.UnknownMemoType tc) ∧
      ∀ v : MemoType, MemoType.try_from ⟨tc, b⟩ ≠ .ok v := by
  simp only [registeredTypeCodes, List.mem_cons, List.mem_singleton,
    not_or] at h
  obtain ⟨h1, h2, h3, h4, h5, h6, h7, h8, h9, h10, h11, h12⟩ := h
  have he : MemoType.try_from ⟨tc, b⟩ = .error (.UnknownMemoType tc) := by
    simp [MemoType.try_from, h1, h2, h3, h4, h5, h6, h7, h8, h9, h10, h11, h12]
  exact ⟨he, fun v hv => by rw [he] at hv; exact Except.noConfusion hv⟩

/-- Witness for C4: the payload with type code `[7, 8]` and an all-zero
64-byte body classifies to `UnknownMemoType([7, 8])`. -/
theorem try_from_unknown_code_witness :
    MemoType.try_from ⟨[7, 8], List.replicate 64 0⟩ =
      .error (.UnknownMemoType [7, 8]) :=
  (try_from_unknown_code [7, 8] (List.replicate 64 0) (by decide)).1

/-- C2: for an Authenticated Sender memo (with or without a payment request
id) built by sender Alice for recipient Bob over transaction public key `k`,
`validate` returns true exactly when all three arguments match the
construction — Alice's address, Bob's view private key and `k` — and is
false whenever any of the three is substituted with a different value. -/
theorem authenticated_sender_validate_iff (alice bob : AccountKey)
    (k pid : Nat) (hA : alice.spend_private_key ≠ 0)
    (a : PublicAddress) (v k' : Nat) :
    ((AuthenticatedSenderMemo.new (SenderMemoCredential.from_account alice)
        (AccountKey.default_subaddress bob).view_public_key k).validate
          a v k' = true ↔
      (a = alice.default_subaddress ∧
        v = bob.default_subaddress_view_private ∧ k' = k)) ∧
    ((AuthenticatedSenderWithPaymentRequestIdMemo.new
        (SenderMemoCredential.from_account alice)
        (AccountKey.default_subaddress bob).view_public_key k pid).validate
          a v k' = true ↔
      (a = alice.default_subaddress ∧
        v = bob.default_subaddress_view_private ∧ k' = k)) := by
  constructor
  · constructor
    · intro h
      simp only [AuthenticatedSenderMemo.validate, AuthenticatedSenderMemo.new,
        SenderMemoCredential.from_account, Bool.and_eq_true, beq_iff_eq] at h
      obtain ⟨hh, ht⟩ := h
      obtain rfl : a = alice.default_subaddress :=
        (shortAddressHash_inj.mp hh).symm
      rw [authTag_inj] at ht
      obtain ⟨hs, hk, -⟩ := ht
      refine ⟨rfl, ?_, hk.symm⟩
      simp only [sharedSecretSender, sharedSecretRecipient,
        AccountKey.default_subaddress, toPublic] at hs
      have hbv := Nat.eq_of_mul_eq_mul_left (Nat.pos_of_ne_zero hA)
        (hs.trans (Nat.mul_comm v alice.spend_private_key))
      simp [AccountKey.default_subaddress_view_private, hbv]
    · rintro ⟨rfl, rfl, rfl⟩
      simp [AuthenticatedSenderMemo.validate, AuthenticatedSenderMemo.new,
        SenderMemoCredential.from_account, sharedSecretSender,
        sharedSecretRecipient, AccountKey.default_subaddress,
        AccountKey.default_subaddress_view_private, toPublic, Nat.mul_comm]
  · constructor
    · intro h
      simp only [AuthenticatedSenderWithPaymentRequestIdMemo.validate,
        AuthenticatedSenderWithPaymentRequestIdMemo.new,
        SenderMemoCredential.from_account, Bool.and_eq_true, beq_iff_eq] at h
      obtain ⟨hh, ht⟩ := h
      obtain rfl : a = alice.default_subaddress :=
        (shortAddressHash_inj.mp hh).symm
      rw [authTag_inj] at ht
      obtain ⟨hs, hk, -⟩ := ht
      refine ⟨rfl, ?_, hk.symm⟩
      simp only [sharedSecretSender, sharedSecretRecipient,
        AccountKey.default_subaddress, toPublic] at hs
      have hbv := Nat.eq_of_mul_eq_mul_left (Nat.pos_of_ne_zero hA)
        (hs.trans (Nat.mul_comm v alice.spend_private_key))
      simp [AccountKey.default_subaddress_view_private, hbv]
    · rintro ⟨rfl, rfl, rfl⟩
      simp [AuthenticatedSenderWithPaymentRequestIdMemo.validate,
        AuthenticatedSenderWithPaymentRequestIdMemo.new,
        SenderMemoCredential.from_account, sharedSecretSender,
        sharedSecretRecipient, AccountKey.default_subaddress,
        AccountKey.default_subaddress_view_private, toPublic, Nat.mul_comm]

/-- Witness for C2 at concrete Alice, Bob and transaction keys: validation
passes on the fully matching triple for both memo variants, and fails when
the transaction key is substituted. -/
theorem authenticated_sender_validate_iff_witness :
    ((AuthenticatedSenderMemo.new
        (SenderMemoCredential.from_account ⟨2, 3⟩)
        (AccountKey.default_subaddress ⟨5, 7⟩).view_public_key 11).validate
          (AccountKey.default_subaddress ⟨2, 3⟩)
          (AccountKey.default_subaddress_view_private ⟨5, 7⟩) 11 = true) ∧
    ((AuthenticatedSenderWithPaymentRequestIdMemo.new
        (SenderMemoCredential.from_account ⟨2, 3⟩)
        (AccountKey.default_subaddress ⟨5, 7⟩).view_public_key 11 7).validate
          (AccountKey.default_subaddress ⟨2, 3⟩)
          (AccountKey.default_subaddress_view_private ⟨5, 7⟩) 11 = true) ∧
    ((AuthenticatedSenderMemo.new
        (SenderMemoCredential.from_account ⟨2, 3⟩)
        (AccountKey.default_subaddress ⟨5, 7⟩).view_public_key 11).validate
          (AccountKey.default_subaddress ⟨2, 3⟩)
          (AccountKey.default_subaddress_view_private ⟨5, 7⟩) 13 = false) := by
  have H := authenticated_sender_validate_iff ⟨2, 3⟩ ⟨5, 7⟩ 11 7 (by decide)
    (AccountKey.default_subaddress ⟨2, 3⟩)
    (AccountKey.default_subaddress_view_private ⟨5, 7⟩) 11
  exact ⟨H.1.mpr ⟨rfl, rfl, rfl⟩, H.2.mpr ⟨rfl, rfl, rfl⟩, by decide⟩

/-- C5: `DestinationMemo::new(address_hash, total_outlay, fee)` fails with a
`DestinationMemoError` whenever `fee` or `total_outlay` exceeds the maximum
value of its 7-byte width, and on success the accessors return exactly the
constructed values, with `num_recipients` defaulting to 1. -/
theorem destinationMemo_new_spec (address_hash : List Nat) (o f : Nat) :
    ((256 ^ 7 ≤ f ∨ 256 ^ 7 ≤ o) →
      ∃ e, DestinationMemo.new address_hash o f = .error e) ∧
    (∀ m, DestinationMemo.new address_hash o f = .ok m →
      m.get_address_hash = address_hash ∧ m.get_total_outlay = o ∧
        m.get_fee = f ∧ m.get_num_recipients = 1) := by
  constructor
  · intro hor
    by_cases hf : f < 256 ^ 7
    · have ho : ¬ o < 256 ^ 7 := by omega
      exact ⟨.TotalOutlayExceedsLimit,
        by rw [DestinationMemo.new, if_pos hf, if_neg ho]⟩
    · exact ⟨.FeeExceedsLimit, by rw [DestinationMemo.new, if_neg hf]⟩
  · intro m hm
    rw [DestinationMemo.new] at hm
    by_cases hf : f < 256 ^ 7
    · by_cases ho : o < 256 ^ 7
      · rw [if_pos hf, if_pos ho] at hm
        injection hm with e
        subst e
        exact ⟨rfl, rfl, rfl, rfl⟩
      · rw [if_pos hf, if_neg ho] at hm
        exact absurd hm (by simp)
    · rw [if_neg hf] at hm
      exact absurd hm (by simp)

/-- Witness for C5: `new(hash, 12, 13)` succeeds with total outlay 12, fee 13
and one recipient, and an out-of-range fee is rejected. -/
theorem destinationMemo_new_spec_witness :
    (DestinationMemo.new (List.replicate 16 0) 12 13 =
      .ok ⟨List.replicate 16 0, 1, 12, 13⟩) ∧
    ((⟨List.replicate 16 0, 1, 12, 13⟩ : DestinationMemo).get_address_hash =
        List.replicate 16 0 ∧
      (⟨List.replicate 16 0, 1, 12, 13⟩ : DestinationMemo).get_total_outlay = 12 ∧
      (⟨List.replicate 16 0, 1, 12, 13⟩ : DestinationMemo).get_fee = 13 ∧
      (⟨List.replicate 16 0, 1, 12, 13⟩ : DestinationMemo).get_num_recipients = 1) ∧
    (∃ e, DestinationMemo.new (List.replicate 16 0) 12 (256 ^ 7) = .error e) :=
  ⟨rfl,
    (destinationMemo_new_spec (List.replicate 16 0) 12 13).2 _ rfl,
    (destinationMemo_new_spec (List.replicate 16 0) 12 (256 ^ 7)).1
      (Or.inl le_rfl)⟩

/-- C6: each `DestinationMemo` mutator changes only its own field, leaving
the other three unchanged; a `set_fee` that violates the field bound is
all-or-nothing, producing no memo; and after applying all four setters all
four accessors reflect the new values independently. -/
theorem destinationMemo_setters_frame (m : DestinationMemo) (h : List Nat)
    (o f n : Nat) :
    ((m.set_address_hash h).get_address_hash = h ∧
      (m.set_address_hash h).get_total_outlay = m.get_total_outlay ∧
      (m.set_address_hash h).get_fee = m.get_fee ∧
      (m.set_address_hash h).get_num_recipients = m.get_num_recipients) ∧
    ((m.set_total_outlay o).get_total_outlay = o ∧
      (m.set_total_outlay o).get_address_hash = m.get_address_hash ∧
      (m.set_total_outlay o).get_fee = m.get_fee ∧
      (m.set_total_outlay o).get_num_recipients = m.get_num_recipients) ∧
    (∀ m', m.set_fee f = .ok m' →
      m'.get_fee = f ∧ m'.get_address_hash = m.get_address_hash ∧
        m'.get_total_outlay = m.get_total_outlay ∧
        m'.get_num_recipients = m.get_num_recipients) ∧
    ((m.set_num_recipients n).get_num_recipients = n ∧
      (m.set_num_recipients n).get_address_hash = m.get_address_hash ∧
      (m.set_num_recipients n).get_total_outlay = m.get_total_outlay ∧
      (m.set_num_recipients n).get_fee = m.get_fee) ∧
    (256 ^ 7 ≤ f → m.set_fee f = .error .FeeExceedsLimit) ∧
    (∀ m', f < 256 ^ 7 →
      ((m.set_address_hash h).set_total_outlay o).set_fee f = .ok m' →
      (m'.set_num_recipients n).get_address_hash = h ∧
        (m'.set_num_recipients n).get_total_outlay = o ∧
        (m'.set_num_recipients n).get_fee = f ∧
        (m'.set_num_recipients n).get_num_recipients = n) := by
  refine ⟨⟨rfl, rfl, rfl, rfl⟩, ⟨rfl, rfl, rfl, rfl⟩, ?_,
    ⟨rfl, rfl, rfl, rfl⟩, ?_, ?_⟩
  · intro m' hm'
    rw [DestinationMemo.set_fee] at hm'
    by_cases hf : f < 256 ^ 7
    · rw [if_pos hf] at hm'
      injection hm' with e
      subst e
      exact ⟨rfl, rfl, rfl, rfl⟩
    · rw [if_neg hf] at hm'
      exact absurd hm' (by simp)
  · intro hf
    rw [DestinationMemo.set_fee, if_neg (by omega)]
  · intro m' hf hm'
    rw [DestinationMemo.set_fee, if_pos hf] at hm'
    injection hm' with e
    subst e
    exact ⟨rfl, rfl, rfl, rfl⟩

/-- Witness for C6 at a concrete memo: after `set_address_hash`,
`set_total_outlay(19)`, `set_fee(17)` and `set_num_recipients(4)`, all four
accessors reflect the new values. -/
theorem destinationMemo_setters_frame_witness :
    ((⟨List.replicate 16 2, 1, 19, 17⟩ : DestinationMemo).set_num_recipients
        4).get_address_hash = List.replicate 16 2 ∧
    ((⟨List.replicate 16 2, 1, 19, 17⟩ : DestinationMemo).set_num_recipients
        4).get_total_outlay = 19 ∧
    ((⟨List.replicate 16 2, 1, 19, 17⟩ : DestinationMemo).set_num_recipients
        4).get_fee = 17 ∧
    ((⟨List.replicate 16 2, 1, 19, 17⟩ : DestinationMemo).set_num_recipients
        4).get_num_recipients = 4 :=
  (destinationMemo_setters_frame ⟨List.replicate 16 1, 1, 12, 13⟩
    (List.replicate 16 2) 19 17 4).2.2.2.2.2 ⟨List.replicate 16 2, 1, 19, 17⟩
    (by decide) rfl

/-- C7: `AuthenticatedSenderWithPaymentRequestIdMemo::payment_request_id`
returns exactly the auxiliary value passed at construction, for every
construction input, and `sender_address_hash` returns the short address hash
of the constructing credential's address. -/
theorem payment_request_id_binding (alice : AccountKey)
    (recipient_view_public tx_public_key pid : Nat) :
    (AuthenticatedSenderWithPaymentRequestIdMemo.new
      (SenderMemoCredential.from_account alice) recipient_view_public
      tx_public_key pid).payment_request_id = pid ∧
    (AuthenticatedSenderWithPaymentRequestIdMemo.new
      (SenderMemoCredential.from_account alice) recipient_view_public
      tx_public_key pid).sender_address_hash =
      shortAddressHash alice.default_subaddress :=
  ⟨rfl, rfl⟩

/-! ## Properties of the merkle-proof service -/

theorem collectOutputResults_length (bp : BlockProviderM) (l : List Nat)
    (rs : List OutputResult) (h : collectOutputResults bp l = .ok rs) :
    rs.length = l.length := by
  induction l generalizing rs with
  | nil =>
      simp only [collectOutputResults] at h
      injection h with h
      subst h
      rfl
  | cons idx rest ih =>
      simp only [collectOutputResults] at h
      cases hg : get_output_impl bp idx with
      | error e => rw [hg] at h; exact Except.noConfusion h
      | ok r =>
          rw [hg] at h
          cases hc : collectOutputResults bp rest with
          | error e => rw [hc] at h; exact Except.noConfusion h
          | ok tail =>
              rw [hc] at h
              injection h with h
              subst h
              simp [ih tail hc]

theorem collectOutputResults_get (bp : BlockProviderM) (l : List Nat)
    (rs : List OutputResult) (h : collectOutputResults bp l = .ok rs) :
    ∀ i (h1 : i < l.length) (h2 : i < rs.length),
      ∃ r, get_output_impl bp (l.get ⟨i, h1⟩) = .ok r ∧
        rs.get ⟨i, h2⟩ = outputResultFor (l.get ⟨i, h1⟩) r := by
  induction l generalizing rs with
  | nil => intro i h1; exact absurd h1 (by simp)
  | cons idx rest ih =>
      simp only [collectOutputResults] at h
      cases hg : get_output_impl bp idx with
      | error e => rw [hg] at h; exact Except.noConfusion h
      | ok r =>
          rw [hg] at h
          cases hc : collectOutputResults bp rest with
          | error e => rw [hc] at h; exact Except.noConfusion h
          | ok tail =>
              rw [hc] at h
              injection h with h
              subst h
              intro i h1 h2
              cases i with
              | zero => exact ⟨r, hg, rfl⟩
              | succ j =>
                  exact ih tail hc j
                    (by simp only [List.length_cons] at h1; omega)
                    (by simp only [List.length_cons] at h2; omega)

theorem collectOutputResults_error_of_mem (bp : BlockProviderM) (l : List Nat)
    (idx : Nat) (e : BlockProviderError) (hm : idx ∈ l)
    (he : bp.get_tx_out_and_membership_proof_by_index idx = .error e)
    (hne : e ≠ .NotFound) :
    ∃ e', collectOutputResults bp l = .error e' := by
  induction l with
  | nil => cases hm
  | cons x rest ih =>
      rcases List.mem_cons.mp hm with rfl | hm'
      · have hgo : get_output_impl bp idx = .error e := by
          unfold get_output_impl
          rw [he]
          cases e with
          | NotFound => exact absurd rfl hne
          | Other c => rfl
        exact ⟨e, by rw [collectOutputResults, hgo]⟩
      · cases hg : get_output_impl bp x with
        | error e2 => exact ⟨e2, by rw [collectOutputResults, hg]⟩
        | ok r =>
            obtain ⟨e', hc⟩ := ih hm'
            exact ⟨e', by rw [collectOutputResults, hg, hc]⟩

theorem get_outputs_impl_ok_inv (mbv : Nat) (bp : BlockProviderM)
    (indexes : List Nat) (resp : GetOutputsResponse)
    (h : get_outputs_impl mbv bp indexes = .ok resp) :
    ∃ latest, bp.get_latest_block = .ok latest ∧
      collectOutputResults bp indexes = .ok resp.results ∧
      resp.num_blocks = latest.index + 1 ∧
      resp.global_txo_count = latest.cumulative_txo_count ∧
      resp.latest_block_version = latest.version ∧
      resp.max_block_version = max latest.version mbv := by
  rw [get_outputs_impl] at h
  by_cases hlen : indexes.length > MAX_REQUEST_SIZE
  · rw [if_pos hlen] at h
    exact Except.noConfusion h
  · rw [if_neg hlen] at h
    cases hlb : bp.get_latest_block with
    | error e => rw [hlb] at h; exact Except.noConfusion h
    | ok latest =>
        rw [hlb] at h
        cases hc : collectOutputResults bp indexes with
        | error e => rw [hc] at h; exact Except.noConfusion h
        | ok results =>
            rw [hc] at h
            injection h with h
            subst h
            exact ⟨latest, rfl, rfl, rfl, rfl, rfl, rfl⟩

/-- C9: `get_outputs_impl` rejects a request of more than
`MAX_REQUEST_SIZE` indexes with an invalid-argument error; otherwise a
successful response holds exactly one result per requested index, in request
order, each carrying its requested index, with `num_blocks` equal to the
latest block index plus 1 and `max_block_version` equal to the maximum of
the latest block version and the compile-time maximum block version. -/
theorem get_outputs_impl_spec (mbv : Nat) (bp : BlockProviderM)
    (indexes : List Nat) :
    (indexes.length > MAX_REQUEST_SIZE →
      get_outputs_impl mbv bp indexes = .error .invalidArg) ∧
    (∀ resp, get_outputs_impl mbv bp indexes = .ok resp →
      resp.results.length = indexes.length ∧
      (∀ i (h1 : i < resp.results.length) (h2 : i < indexes.length),
        (resp.results.get ⟨i, h1⟩).index = indexes.get ⟨i, h2⟩) ∧
      (∀ latest, bp.get_latest_block = .ok latest →
        resp.num_blocks = latest.index + 1 ∧
        resp.max_block_version = max latest.version mbv)) := by
  constructor
  · intro hlen
    rw [get_outputs_impl, if_pos hlen]
  · intro resp hresp
    obtain ⟨latest, hlb, hc, hnb, -, -, hmbv⟩ :=
      get_outputs_impl_ok_inv mbv bp indexes resp hresp
    refine ⟨collectOutputResults_length bp indexes resp.results hc, ?_, ?_⟩
    · intro i h1 h2
      obtain ⟨r, -, hget⟩ :=
        collectOutputResults_get bp indexes resp.results hc i h2 h1
      rw [hget]
      cases r with
      | none => rfl
      | some p => cases p; rfl
    · intro latest2 hlb2
      rw [hlb] at hlb2
      injection hlb2 with hlb2
      subst hlb2
      exact ⟨hnb, hmbv⟩

/-- Witness for C9 at a concrete provider: an oversized request is rejected,
and a 2-index request yields 2 results with `num_blocks` and
`max_block_version` as specified. -/
theorem get_outputs_impl_spec_witness :
    (get_outputs_impl 3 ⟨.ok ⟨0, 5, 10⟩, fun idx => .ok (idx, idx)⟩
        (List.replicate 2001 0) = .error .invalidArg) ∧
    ((⟨1, 10, [⟨4, .Exists, 4, 4⟩, ⟨7, .Exists, 7, 7⟩], 5, 5⟩ :
        GetOutputsResponse).results.length = [4, 7].length) ∧
    ((⟨1, 10, [⟨4, .Exists, 4, 4⟩, ⟨7, .Exists, 7, 7⟩], 5, 5⟩ :
        GetOutputsResponse).num_blocks = (0 : Nat) + 1) ∧
    ((⟨1, 10, [⟨4, .Exists, 4, 4⟩, ⟨7, .Exists, 7, 7⟩], 5, 5⟩ :
        GetOutputsResponse).max_block_version = max 5 3) := by
  have H := get_outputs_impl_spec 3 ⟨.ok ⟨0, 5, 10⟩, fun idx => .ok (idx, idx)⟩
    [4, 7]
  have Hbig := get_outputs_impl_spec 3
    ⟨.ok ⟨0, 5, 10⟩, fun idx => .ok (idx, idx)⟩ (List.replicate 2001 0)
  have Hok := H.2 ⟨1, 10, [⟨4, .Exists, 4, 4⟩, ⟨7, .Exists, 7, 7⟩], 5, 5⟩ rfl
  exact ⟨Hbig.1 (by rw [List.length_replicate]; decide), Hok.1,
    (Hok.2.2 ⟨0, 5, 10⟩ rfl).1, (Hok.2.2 ⟨0, 5, 10⟩ rfl).2⟩

/-- C10: a `NotFound` from the block provider is not a request failure:
`get_output_impl` maps it to `none`, and the corresponding result carries
`DoesNotExist` with the requested index and default output and proof, while
any other block-provider error fails the entire request with a database
error and no response is produced. -/
theorem get_output_impl_not_found_spec (mbv : Nat) (bp : BlockProviderM)
    (indexes : List Nat) :
    (∀ idx, bp.get_tx_out_and_membership_proof_by_index idx =
        .error .NotFound → get_output_impl bp idx = .ok none) ∧
    (∀ resp, get_outputs_impl mbv bp indexes = .ok resp →
      ∀ i (h1 : i < resp.results.length) (h2 : i < indexes.length),
        bp.get_tx_out_and_membership_proof_by_index (indexes.get ⟨i, h2⟩) =
          .error .NotFound →
        resp.results.get ⟨i, h1⟩ =
          ⟨indexes.get ⟨i, h2⟩, .DoesNotExist, 0, 0⟩) ∧
    (∀ idx e, idx ∈ indexes →
      bp.get_tx_out_and_membership_proof_by_index idx = .error e →
      e ≠ .NotFound → indexes.length ≤ MAX_REQUEST_SIZE →
      ∃ e', get_outputs_impl mbv bp indexes = .error (.databaseErr e')) := by
  refine ⟨?_, ?_, ?_⟩
  · intro idx he
    unfold get_output_impl
    rw [he]
  · intro resp hresp i h1 h2 hnf
    obtain ⟨latest, -, hc, -⟩ :=
      get_outputs_impl_ok_inv mbv bp indexes resp hresp
    obtain ⟨r, hr, hget⟩ :=
      collectOutputResults_get bp indexes resp.results hc i h2 h1
    have hnone : get_output_impl bp (indexes.get ⟨i, h2⟩) = .ok none := by
      unfold get_output_impl
      rw [hnf]
    rw [hnone] at hr
    injection hr with hr
    subst hr
    rw [hget]
    rfl
  · intro idx e hm he hne hlen
    obtain ⟨e', hc⟩ :=
      collectOutputResults_error_of_mem bp indexes idx e hm he hne
    cases hlb : bp.get_latest_block with
    | error e2 =>
        refine ⟨e2, ?_⟩
        rw [get_outputs_impl, if_neg (by omega), hlb]
    | ok latest =>
        refine ⟨e', ?_⟩
        rw [get_outputs_impl, if_neg (by omega), hlb, hc]

/-- Witness for C10 at a concrete provider where index 4 is `NotFound` and
another provider that always fails: the `NotFound` index yields a
`DoesNotExist` result with defaults, and the failing provider turns the
whole request into a database error. -/
theorem get_output_impl_not_found_spec_witness :
    (get_output_impl
        ⟨.ok ⟨0, 5, 10⟩, fun idx =>
          if idx = 4 then .error .NotFound else .ok (idx, idx)⟩ 4 =
      .ok none) ∧
    ((⟨1, 10, [⟨4, .DoesNotExist, 0, 0⟩, ⟨7, .Exists, 7, 7⟩], 5, 5⟩ :
        GetOutputsResponse).results.get ⟨0, by decide⟩ =
      ⟨4, .DoesNotExist, 0, 0⟩) ∧
    (∃ e', get_outputs_impl 3 ⟨.ok ⟨0, 5, 10⟩, fun _ => .error (.Other 9)⟩
        [4] = .error (.databaseErr e')) := by
  have H := get_output_impl_not_found_spec 3
    ⟨.ok ⟨0, 5, 10⟩, fun idx =>
      if idx = 4 then .error .NotFound else .ok (idx, idx)⟩ [4, 7]
  have H2 := get_output_impl_not_found_spec 3
    ⟨.ok ⟨0, 5, 10⟩, fun _ => .error (.Other 9)⟩ [4]
  exact ⟨H.1 4 rfl,
    H.2.1 ⟨1, 10, [⟨4, .DoesNotExist, 0, 0⟩, ⟨7, .Exists, 7, 7⟩], 5, 5⟩ rfl 0
      (by decide) (by decide) rfl,
    H2.2.2 4 (.Other 9) (by decide) rfl (by decide) (by decide)⟩
